import Mathlib

/-!
Shallow embedding of `src/static/app.js`: a browser script that fetches an
activity catalog, renders it, and handles signup / unregister actions.

The DOM surface is modelled explicitly (`Dom`, `PageState`); the three
handlers are modelled as functions of the fetch outcome, producing either a
new state or a trace of observable effects (`Step`).  JavaScript
peculiarities are kept: string interpolation of `undefined` prints
"undefined" (`jsStr`), `x || y` falls through on the empty string (`jsOr`),
and accessing `.length` of a missing field throws (`renderCard`).
-/

/-- JS string interpolation of a possibly-undefined string value:
`${undefined}` renders as "undefined". -/
def jsStr : Option String → String
  | some s => s
  | none => "undefined"

/-- JS string interpolation of a possibly-undefined number value. -/
def jsNat : Option Nat → String
  | some n => toString n
  | none => "undefined"

/-- JS `x || y` on a possibly-undefined string: both `undefined` and the
empty string are falsy, so they fall through to the default. -/
def jsOr : Option String → String → String
  | some s, d => if s = "" then d else s
  | none, d => d

/-- One value of the catalog mapping, as the renderer reads it.  Every field
is optional so that malformed entries (missing fields) are representable:
in JS a missing field reads as `undefined`. -/
structure ActivityDetails where
  description : Option String
  schedule : Option String
  max_participants : Option Nat
  participants : Option (List String)
deriving DecidableEq

/-- The activity catalog: `Object.entries` order of the JSON object mapping
activity name to its details. -/
abbrev Catalog := List (String × ActivityDetails)

/-- The DOM regions this script writes: the children of `#activities-list`
(each entry one child's HTML) and the options of the `#activity` select
(value, text) pairs. -/
structure Dom where
  activitiesList : List String
  selectOptions : List (String × String)
deriving DecidableEq

/-- `<li>` for one participant, from `details.participants.map(email => ...)`
in `displayActivities`. -/
def participantLi (name email : String) : String :=
  "<li>" ++ email ++ "<button class=\"delete-btn\" data-activity=\"" ++ name
    ++ "\" data-email=\"" ++ email ++ "\" title=\"Remove participant\">🗑️</button></li>"

/-- The placeholder shown when an activity has no participants. -/
def noParticipantsHtml : String :=
  "<p class=\"no-participants\">No participants yet</p>"

/-- The `participantsList` ternary in `displayActivities`: a `<ul>` when the
list is non-empty, otherwise the placeholder paragraph. -/
def participantsListHtml (name : String) (ps : List String) : String :=
  if ps.length > 0 then
    "<ul>" ++ String.join (ps.map (participantLi name)) ++ "</ul>"
  else noParticipantsHtml

/-- The capacity indicator interpolation
`${details.participants.length}/${details.max_participants}`. -/
def capacityIndicator (ps : List String) (d : ActivityDetails) : String :=
  toString ps.length ++ "/" ++ jsNat d.max_participants

/-- The card template literal assigned to `card.innerHTML`, given the
already-read participants array `ps`. -/
def cardHtml (name : String) (d : ActivityDetails) (ps : List String) : String :=
  "\n      <h4>" ++ name
    ++ "</h4>\n      <p><strong>Description:</strong> " ++ jsStr d.description
    ++ "</p>\n      <p><strong>Schedule:</strong> " ++ jsStr d.schedule
    ++ "</p>\n      <p><strong>Capacity:</strong> " ++ capacityIndicator ps d
    ++ "</p>\n      <div class=\"participants\">\n        <h5>Current Participants:</h5>\n        "
    ++ participantsListHtml name ps ++ "\n      </div>\n    "

/-- One iteration of the `displayActivities` loop body.  Reading
`details.participants.length` on a missing `participants` field throws a
`TypeError`; otherwise the card HTML is produced. -/
def renderCard (name : String) (d : ActivityDetails) : Except String String :=
  match d.participants with
  | none => .error "TypeError: Cannot read properties of undefined (reading 'length')"
  | some ps => .ok (cardHtml name d ps)

/-- The `displayActivities` loop: appends cards in order until the first
thrown error, returning the children appended so far and the error, if any,
that propagates to the caller. -/
def displayActivitiesAux : Catalog → List String → List String × Option String
  | [], acc => (acc, none)
  | (name, d) :: rest, acc =>
    match renderCard name d with
    | .error e => (acc, some e)
    | .ok card => displayActivitiesAux rest (acc ++ [card])

/-- `displayActivities(activities)`: clears `#activities-list`
(`container.innerHTML = ''`), then appends one card per entry; a thrown
error leaves the cards appended so far and propagates (second component). -/
def displayActivities (cat : Catalog) (dom : Dom) : Dom × Option String :=
  let r := displayActivitiesAux cat []
  ({ dom with activitiesList := r.1 }, r.2)

/-- The placeholder option `populateActivitySelect` writes first:
`<option value="">-- Select an activity --</option>`. -/
def placeholderOption : String × String := ("", "-- Select an activity --")

/-- `populateActivitySelect(activities)`: replaces the select's options with
the placeholder followed by one option per activity name. -/
def populateActivitySelect (cat : Catalog) (dom : Dom) : Dom :=
  { dom with selectOptions := placeholderOption :: cat.map (fun p => (p.1, p.1)) }

/-- The success-path body of `loadActivities`: display then populate. -/
def renderCatalog (cat : Catalog) (dom : Dom) : Dom :=
  populateActivitySelect cat (displayActivities cat dom).1

/-- The fallback paragraph `loadActivities` writes into `#activities-list`
when anything in its try block throws. -/
def fallbackErrorHtml : String :=
  "<p class=\"error\">Failed to load activities. Please try again later.</p>"

/-- Outcome of a `fetch` followed by `response.json()`: either the fetch
itself rejects (network failure, with the error's message), or a response
arrives with an `ok` flag and a body that parses to `α` or throws a
`SyntaxError` (with its message). -/
inductive FetchOutcome (α : Type) where
  | netError (msg : String)
  | resp (ok : Bool) (json : Except String α)

/-- `loadActivities()`: fetches `/activities`, parses the body, and renders.
Note the source never consults `response.ok`: the parsed body is rendered
whatever the status.  Any error thrown inside the try block (fetch
rejection, parse failure, or a rendering `TypeError`) is caught and replaces
the list contents with the static fallback paragraph; nothing propagates. -/
def loadActivities (f : FetchOutcome Catalog) (dom : Dom) : Dom :=
  match f with
  | .netError _ => { dom with activitiesList := [fallbackErrorHtml] }
  | .resp _ json =>
    match json with
    | .error _ => { dom with activitiesList := [fallbackErrorHtml] }
    | .ok cat =>
      let r := displayActivities cat dom
      match r.2 with
      | some _ => { r.1 with activitiesList := [fallbackErrorHtml] }
      | none => populateActivitySelect cat r.1

/-- The response body shape of the signup / unregister endpoints:
`{ message }` on success, `{ detail }` on failure; both fields optional. -/
structure ResponseBody where
  message : Option String
  detail : Option String
deriving DecidableEq

/-- Observable effects of the two action handlers, in program order:
issuing the HTTP request, showing the status message (set `className`, set
`textContent`, remove the `hidden` class), reloading the catalog
(`await loadActivities()`), `form.reset()`, scheduling the `setTimeout`
hide, `console.error`, and a blocking `alert`. -/
inductive Step where
  | request
  | showMessage (cls text : String)
  | refetch
  | resetForm
  | scheduleHide (ms : Nat)
  | consoleError (text : String)
  | alertBox (text : String)
deriving DecidableEq

/-- The `#signup-form` submit handler as its trace of effects, as a function
of the fetch outcome.  `response.json()` runs before the `ok` test, so a
parse failure throws regardless of status; on success: show the message,
reload, reset; on a non-ok status: `throw new Error(data.detail || 'Failed
to sign up')`.  The catch block shows the error's message; the `setTimeout`
that hides the message after 5000 ms runs on every path. -/
def signupSteps (f : FetchOutcome ResponseBody) : List Step :=
  match f with
  | .netError msg =>
    [.request, .showMessage "message error" msg, .scheduleHide 5000]
  | .resp ok json =>
    match json with
    | .error e =>
      [.request, .showMessage "message error" e, .scheduleHide 5000]
    | .ok data =>
      if ok then
        [.request, .showMessage "message success" (jsStr data.message),
         .refetch, .resetForm, .scheduleHide 5000]
      else
        [.request,
         .showMessage "message error" (jsOr data.detail "Failed to sign up"),
         .scheduleHide 5000]

/-- `handleDelete` as its trace of effects: nothing at all when the
confirmation dialog is declined; otherwise the request, then on success only
a reload, and on any failure (`throw new Error(data.detail || 'Failed to
unregister')`, parse failure, or network failure) a `console.error` and a
blocking alert with the error's message. -/
def deleteSteps (confirmed : Bool) (f : FetchOutcome ResponseBody) : List Step :=
  if confirmed then
    match f with
    | .netError msg =>
      [.request, .consoleError msg,
       .alertBox ("Failed to unregister participant: " ++ msg)]
    | .resp ok json =>
      match json with
      | .error e =>
        [.request, .consoleError e,
         .alertBox ("Failed to unregister participant: " ++ e)]
      | .ok data =>
        if ok then [.request, .refetch]
        else
          [.request, .consoleError (jsOr data.detail "Failed to unregister"),
           .alertBox ("Failed to unregister participant: "
             ++ jsOr data.detail "Failed to unregister")]
  else []

/-- The `#message` status area: its class string, text, and whether the
`hidden` class is currently present. -/
structure MessageBox where
  className : String
  textContent : String
  hiddenCls : Bool
deriving DecidableEq

/-- Page state the handlers touch: the status area, the form fields
(`#email` value and the `#activity` selection), how many catalog fetches
have been issued, and the pending hide timer's delay, if one is set. -/
structure PageState where
  msg : MessageBox
  emailField : String
  activityField : String
  fetchCount : Nat
  pendingHide : Option Nat
deriving DecidableEq

/-- Effect of one step on the page state.  `form.reset()` restores the
defaults: empty email, the placeholder (empty-value) selection.  A refetch
is counted; its rendering consumes the fresh server catalog, which is not
part of this state.  `console.error` and `alert` leave the page alone. -/
def applyStep (st : PageState) : Step → PageState
  | .request => st
  | .showMessage cls text =>
    { st with msg := { className := cls, textContent := text, hiddenCls := false } }
  | .refetch => { st with fetchCount := st.fetchCount + 1 }
  | .resetForm => { st with emailField := "", activityField := "" }
  | .scheduleHide ms => { st with pendingHide := some ms }
  | .consoleError _ => st
  | .alertBox _ => st

/-- Run a trace of effects over the page state. -/
def runSteps (steps : List Step) (st : PageState) : PageState :=
  steps.foldl applyStep st

/-- Let `t` milliseconds pass: a pending hide timer whose delay has elapsed
fires, adding the `hidden` class back to the status area. -/
def elapse (t : Nat) (st : PageState) : PageState :=
  match st.pendingHide with
  | some d =>
    if d ≤ t then
      { st with msg := { st.msg with hiddenCls := true }, pendingHide := none }
    else st
  | none => st

/-- Claim C9: every rendered card's capacity indicator is the participant
count, a slash, and `max_participants`; it occurs in the card right after
the `Capacity:` label; and for participants `["a@x.com"]` with
`max_participants = 10` it is exactly "1/10". -/
theorem capacity_indicator_format (name : String) (d : ActivityDetails)
    (ps : List String) :
    capacityIndicator ps d = toString ps.length ++ "/" ++ jsNat d.max_participants
    ∧ (∃ pre post, cardHtml name d ps = pre ++ capacityIndicator ps d ++ post)
    ∧ capacityIndicator ["a@x.com"]
        ⟨some "Weekly chess", some "Fridays", some 10, some ["a@x.com"]⟩ = "1/10" := by
  refine ⟨rfl, ⟨"\n      <h4>" ++ name
      ++ "</h4>\n      <p><strong>Description:</strong> " ++ jsStr d.description
      ++ "</p>\n      <p><strong>Schedule:</strong> " ++ jsStr d.schedule
      ++ "</p>\n      <p><strong>Capacity:</strong> ",
    "</p>\n      <div class=\"participants\">\n        <h5>Current Participants:</h5>\n        "
      ++ participantsListHtml name ps ++ "\n      </div>\n    ", ?_⟩, by decide⟩
  simp only [cardHtml, String.append_assoc]

/-- Claim C10: for an entry with an empty participants list, the
participants section of the card is the "No participants yet" placeholder
paragraph, not a `<ul>` list element, and it occurs in the card. -/
theorem empty_participants_placeholder (name : String) (d : ActivityDetails) :
    participantsListHtml name [] = noParticipantsHtml
    ∧ (∃ pre post, cardHtml name d [] = pre ++ noParticipantsHtml ++ post) := by
  refine ⟨rfl, ⟨"\n      <h4>" ++ name
      ++ "</h4>\n      <p><strong>Description:</strong> " ++ jsStr d.description
      ++ "</p>\n      <p><strong>Schedule:</strong> " ++ jsStr d.schedule
      ++ "</p>\n      <p><strong>Capacity:</strong> " ++ capacityIndicator [] d
      ++ "</p>\n      <div class=\"participants\">\n        <h5>Current Participants:</h5>\n        ",
    "\n      </div>\n    ", ?_⟩⟩
  simp only [cardHtml, participantsListHtml, List.length_nil, gt_iff_lt,
    lt_self_iff_false, if_false, String.append_assoc]

/-- Claim C5: rendering is idempotent and fully replaces prior output: the
rendered DOM does not depend on the previous DOM at all (old output is
discarded, so repeated renders accumulate nothing), rendering twice equals
rendering once, and the select's options always begin with the
non-selectable placeholder. -/
theorem render_idempotent (cat : Catalog) (dom dom2 : Dom) :
    renderCatalog cat (renderCatalog cat dom) = renderCatalog cat dom
    ∧ (renderCatalog cat dom).selectOptions.head? = some placeholderOption
    ∧ renderCatalog cat dom = renderCatalog cat dom2 := by
  have key : ∀ d : Dom, renderCatalog cat d =
      ⟨(displayActivitiesAux cat []).1,
        placeholderOption :: cat.map (fun p => (p.1, p.1))⟩ := fun _ => rfl
  exact ⟨by rw [key, key], by rw [key]; rfl, by rw [key, key]⟩

lemma displayActivitiesAux_no_raise (cat : Catalog) :
    ∀ acc : List String, (∀ p ∈ cat, p.2.participants.isSome = true) →
      (displayActivitiesAux cat acc).2 = none := by
  induction cat with
  | nil => intro acc _; rfl
  | cons hd tl ih =>
    intro acc h
    obtain ⟨n, d⟩ := hd
    obtain ⟨ps, hps⟩ := Option.isSome_iff_exists.mp (h (n, d) (List.mem_cons_self _ _))
    rw [displayActivitiesAux, renderCard, hps]
    exact ih _ (fun p hp => h p (List.mem_cons_of_mem _ hp))

/-- Claim C4 (counterexample): `displayActivities` does raise on a
malformed entry whose `participants` field is absent — reading `.length`
of the missing field throws a `TypeError` that propagates to the caller. -/
theorem displayActivities_missing_participants_raises :
    (displayActivities [("Chess Club", ⟨some "Casual games", some "Fridays",
        some 12, none⟩)] ⟨[], []⟩).2 =
      some "TypeError: Cannot read properties of undefined (reading 'length')"
    ∧ (displayActivities [("Chess Club", ⟨some "Casual games", some "Fridays",
        some 12, none⟩)] ⟨[], []⟩).2 ≠ none := by
  exact ⟨rfl, by decide⟩

/-- Claim C4 (amended): `displayActivities` never raises on any catalog
whose entries all carry a `participants` field; other missing fields
(description, schedule, max_participants) only degrade the output to
"undefined" text.  An entry missing `participants` is the one malformed
shape that does raise. -/
theorem displayActivities_no_raise (cat : Catalog) (dom : Dom)
    (h : ∀ p ∈ cat, p.2.participants.isSome = true) :
    (displayActivities cat dom).2 = none :=
  displayActivitiesAux_no_raise cat [] h

/-- Witness for the amended C4 theorem at a concrete catalog with a missing
description but present participants. -/
theorem displayActivities_no_raise_witness :
    (displayActivities [("Chess Club", ⟨none, some "Fridays", some 12,
        some ["a@x.com"]⟩)] ⟨[], []⟩).2 = none :=
  displayActivities_no_raise _ _ (by decide)

/-- Claim C3 (counterexample): a non-success HTTP status alone is not
treated as a fetch failure — the source never consults `response.ok` on the
read path.  A 4xx/5xx response whose body parses as an (empty) catalog is
rendered normally; the static fallback message is not substituted. -/
theorem loadActivities_nonok_not_fallback :
    (loadActivities (.resp false (.ok [])) ⟨[], []⟩).activitiesList = []
    ∧ (loadActivities (.resp false (.ok []))
        ⟨[], []⟩).activitiesList ≠ [fallbackErrorHtml] := by
  exact ⟨rfl, by decide⟩

/-- Claim C3 (amended): a network failure or an unparseable body on the
read path is caught locally: the static fallback message replaces the
activity list and nothing propagates out of the handler (`loadActivities`
is total).  The HTTP status, however, is ignored: a response body is
handled identically whatever the `ok` flag, so a non-success status alone
triggers no fallback. -/
theorem loadActivities_failure_fallback (msg e : String) (ok ok2 : Bool)
    (json : Except String Catalog) (dom : Dom) :
    (loadActivities (.netError msg) dom).activitiesList = [fallbackErrorHtml]
    ∧ (loadActivities (.resp ok (.error e)) dom).activitiesList = [fallbackErrorHtml]
    ∧ loadActivities (.resp ok json) dom = loadActivities (.resp ok2 json) dom := by
  exact ⟨rfl, rfl, rfl⟩

/-- Claim C1: on a success response with body `{message: m}`, the signup
handler shows the success message with text exactly `m` (visible: the
`hidden` class removed), then triggers a fresh catalog fetch, then resets
the form (email empty, activity selection back to the placeholder), in that
order. -/
theorem signup_success_flow (m : String) (det : Option String) (st : PageState) :
    signupSteps (.resp true (.ok ⟨some m, det⟩)) =
      [.request, .showMessage "message success" m, .refetch, .resetForm,
       .scheduleHide 5000]
    ∧ (runSteps (signupSteps (.resp true (.ok ⟨some m, det⟩))) st).msg =
        ⟨"message success", m, false⟩
    ∧ (runSteps (signupSteps (.resp true (.ok ⟨some m, det⟩))) st).fetchCount =
        st.fetchCount + 1
    ∧ (runSteps (signupSteps (.resp true (.ok ⟨some m, det⟩))) st).emailField = ""
    ∧ (runSteps (signupSteps (.resp true (.ok ⟨some m, det⟩))) st).activityField = "" := by
  refine ⟨by simp [signupSteps, jsStr], ?_, ?_, ?_, ?_⟩ <;>
    simp [signupSteps, jsStr, runSteps, applyStep]

/-- Claim C2 (counterexample): a non-success response that does supply a
`detail` field, but an empty one, does not show that supplied detail (the
empty string): `data.detail || 'Failed to sign up'` treats the empty string
as falsy, so the generic fallback is shown instead. -/
theorem signup_empty_detail_shows_fallback :
    signupSteps (.resp false (.ok ⟨none, some ""⟩)) =
      [.request, .showMessage "message error" "Failed to sign up",
       .scheduleHide 5000]
    ∧ ("Failed to sign up" : String) ≠ "" := by
  exact ⟨rfl, by decide⟩

/-- Claim C2 (amended): on a non-success response the signup handler shows
an error message with the supplied `detail` text when that text is
non-empty, and the generic "Failed to sign up" fallback when `detail` is
absent or empty; on any thrown error (network failure, or a body that fails
to parse) it shows that error's message text; and no error path triggers a
catalog refetch. -/
theorem signup_error_flow (m det : Option String) (s msg e : String)
    (ok : Bool) (hs : s ≠ "") :
    signupSteps (.resp false (.ok ⟨m, some s⟩)) =
      [.request, .showMessage "message error" s, .scheduleHide 5000]
    ∧ signupSteps (.resp false (.ok ⟨m, none⟩)) =
        [.request, .showMessage "message error" "Failed to sign up",
         .scheduleHide 5000]
    ∧ signupSteps (.resp false (.ok ⟨m, some ""⟩)) =
        [.request, .showMessage "message error" "Failed to sign up",
         .scheduleHide 5000]
    ∧ signupSteps (.netError msg) =
        [.request, .showMessage "message error" msg, .scheduleHide 5000]
    ∧ signupSteps (.resp ok (.error e)) =
        [.request, .showMessage "message error" e, .scheduleHide 5000]
    ∧ Step.refetch ∉ signupSteps (.resp false (.ok ⟨m, det⟩))
    ∧ Step.refetch ∉ signupSteps (.netError msg)
    ∧ Step.refetch ∉ signupSteps (.resp ok (.error e)) := by
  cases ok <;>
    refine ⟨by simp [signupSteps, jsOr, hs], rfl, rfl, rfl, rfl, ?_, ?_, ?_⟩ <;>
    simp [signupSteps]

/-- Witness for the amended C2 theorem, at the spec's concrete error case
`{detail: "Already signed up"}`. -/
theorem signup_error_flow_witness :
    signupSteps (.resp false (.ok ⟨none, some "Already signed up"⟩)) =
      [.request, .showMessage "message error" "Already signed up",
       .scheduleHide 5000] :=
  (signup_error_flow none none "Already signed up" "Failed to fetch"
    "Unexpected end of JSON input" true (by decide)).1

/-- Claim C6: on a confirmed unregister, a success response triggers only
the catalog refetch — no status message is shown; every failure (non-ok
response, parse failure, network failure) surfaces a blocking alert carrying
the error's detail text, and the transient status-message mechanism
(`showMessage` / the hide timer) is never used by this handler. -/
theorem handleDelete_outcomes (b : ResponseBody) (msg e : String) (ok : Bool)
    (f : FetchOutcome ResponseBody) :
    deleteSteps true (.resp true (.ok b)) = [.request, .refetch]
    ∧ deleteSteps true (.resp false (.ok b)) =
        [.request, .consoleError (jsOr b.detail "Failed to unregister"),
         .alertBox ("Failed to unregister participant: "
           ++ jsOr b.detail "Failed to unregister")]
    ∧ deleteSteps true (.netError msg) =
        [.request, .consoleError msg,
         .alertBox ("Failed to unregister participant: " ++ msg)]
    ∧ deleteSteps true (.resp ok (.error e)) =
        [.request, .consoleError e,
         .alertBox ("Failed to unregister participant: " ++ e)]
    ∧ (∀ c t, Step.showMessage c t ∉ deleteSteps true f)
    ∧ (∀ ms, Step.scheduleHide ms ∉ deleteSteps true f) := by
  refine ⟨rfl, rfl, rfl, rfl, ?_, ?_⟩ <;>
    · intros
      cases f with
      | netError m2 => simp [deleteSteps]
      | resp ok2 json =>
        cases json with
        | error e2 => simp [deleteSteps]
        | ok data => cases ok2 <;> simp [deleteSteps]

/-- Claim C7: when the confirmation dialog is declined, the unregister
handler returns immediately: its effect trace is empty — no HTTP request,
no alert, no message — and the page state is left exactly as it was. -/
theorem handleDelete_declined (f : FetchOutcome ResponseBody) (st : PageState) :
    deleteSteps false f = [] ∧ runSteps (deleteSteps false f) st = st := by
  exact ⟨by simp [deleteSteps], by simp [deleteSteps, runSteps]⟩

/-- Claim C8: whatever the signup outcome (success, non-ok response, parse
failure, network failure), the handler always schedules the 5000 ms hide
timer, so once 5 seconds elapse the status message carries the `hidden`
class again — it is no longer visible. -/
theorem signup_message_hidden_after_5s (f : FetchOutcome ResponseBody)
    (st : PageState) :
    (elapse 5000 (runSteps (signupSteps f) st)).msg.hiddenCls = true := by
  cases f with
  | netError msg => simp [signupSteps, runSteps, applyStep, elapse]
  | resp ok json =>
    cases json with
    | error e => simp [signupSteps, runSteps, applyStep, elapse]
    | ok data => cases ok <;> simp [signupSteps, runSteps, applyStep, elapse]
